import Mathlib

/-!
Shallow embedding of the commit-365 telegram bot helper
(`bot.py`, `message_sanitization.py`, `env_validation.py`).

Timestamps are modelled as integers (seconds); `datetime.now()` becomes an
explicit `now` parameter, `timedelta(days=10)` is `864000`, `timedelta(days=1)`
is `86400`, and the configured window `timedelta(hours=h)` is `h * 3600`.
The sqlite database is a pair of lists mirroring the two tables; the columns
of `users` that the code never reads (`username`, `first_name`) are omitted.
-/

namespace CommitBot

/-- Environment configuration (`env_validation.validate_env`): `MESSAGE_LIMIT`,
`TIME_WINDOW_HOURS` and `ALLOWED_CHAT_IDS`.  The three credentials are I/O-only
and do not influence the logic modelled here. -/
structure Config where
  message_limit : Nat
  time_window_hours : Int
  allowed_chat_ids : List Int
deriving DecidableEq

/-- Python `config.time_window` = `timedelta(hours=time_window_hours)`, in seconds. -/
def timeWindow (cfg : Config) : Int := cfg.time_window_hours * 3600

/-- Python `timedelta(days=10)`: the fixed maximum retention age, in seconds. -/
def maxRetentionAge : Int := 864000

/-- One row of the `messages` table. -/
structure Msg where
  message_id : Int
  chat_id : Int
  user_id : Int
  username : String
  first_name : String
  text : String
  timestamp : Int
deriving DecidableEq

/-- One row of the `users` table (only the columns the code reads/writes). -/
structure UserRec where
  user_id : Int
  last_seen : Int
  last_message_id : Int
  last_summary_timestamp : Option Int
deriving DecidableEq

/-- The sqlite database `chatzzipper.db`. -/
structure DB where
  users : List UserRec
  messages : List Msg
deriving DecidableEq

/-- The query `SELECT ... FROM users WHERE user_id = ?` (primary-key lookup). -/
def findUser (db : DB) (uid : Int) : Option UserRec :=
  db.users.find? (fun u => u.user_id == uid)

/-! ### message_sanitization.py -/

/-- The single-quote character. -/
def squote : Char := Char.ofNat 39

/-- The double-quote character. -/
def dquote : Char := Char.ofNat 34

/-- Membership in the character class of `re.sub(r'[\;\'\"\-\-]', '', text)`:
the class contains exactly `;`, the two quotes and `-` (listed twice). -/
def isSqlStripped (c : Char) : Bool :=
  c = ';' || c = squote || c = dquote || c = '-'

/-- One character's image under Python's `html.escape` (default `quote=True`). -/
def htmlEscapeChar (c : Char) : List Char :=
  if c = '&' then ("&amp;").data
  else if c = '<' then ("&lt;").data
  else if c = '>' then ("&gt;").data
  else if c = dquote then ("&quot;").data
  else if c = squote then ("&#x27;").data
  else [c]

/-- Python `sanitize_input`: strip the SQL metacharacter class, HTML-escape, drop
control characters (`ord < 32`), truncate to 4096 characters.  A `None`
argument is handled by callers via `Option.getD ""` (Python `if not text`
covers both `None` and the empty string). -/
def sanitize_input (text : String) : String :=
  if text = "" then ""
  else
    let step1 := text.data.filter (fun c => ! isSqlStripped c)
    let step2 := step1.flatMap htmlEscapeChar
    let step3 := step2.filter (fun c => 32 ≤ c.toNat)
    String.mk (step3.take 4096)

/-- Python `sanitize_user_data`: sanitize both optional string fields, then reject a
non-positive user id with `ValueError("Invalid user ID")`. -/
def sanitize_user_data (user_id : Int) (username first_name : Option String) :
    Except String (Int × String × String) :=
  let u := sanitize_input (username.getD "")
  let f := sanitize_input (first_name.getD "")
  if user_id ≤ 0 then Except.error ("Invalid user ID")
  else Except.ok (user_id, u, f)

/-! ### Storage operations (bot.py) -/

/-- Python `store_message`: insert the row only when no row with this `message_id`
exists yet. -/
def store_message (db : DB) (m : Msg) : DB :=
  if db.messages.any (fun x => x.message_id == m.message_id) then db
  else { db with messages := db.messages ++ [m] }

/-- Python `update_user_activity`: upsert guarded by `last_seen > current_last_seen`;
on update, `last_summary_timestamp` is written only when `summary_timestamp`
was provided; when the guard fails nothing at all is written. -/
def update_user_activity (db : DB) (uid last_seen last_message_id : Int)
    (summary_timestamp : Option Int) : DB :=
  match findUser db uid with
  | some u =>
      if u.last_seen < last_seen then
        { db with users := db.users.map (fun v =>
            if v.user_id == uid then
              match summary_timestamp with
              | some st =>
                  { v with last_seen := last_seen, last_message_id := last_message_id,
                           last_summary_timestamp := some st }
              | none =>
                  { v with last_seen := last_seen, last_message_id := last_message_id }
            else v) }
      else db
  | none =>
      { db with users := db.users ++
          [{ user_id := uid, last_seen := last_seen,
             last_message_id := last_message_id,
             last_summary_timestamp := summary_timestamp }] }

/-- Python `get_user_last_seen`: the later of the stored `last_seen` and
`last_summary_timestamp` when a record exists, else `now - timedelta(days=1)`. -/
def get_user_last_seen (db : DB) (now uid : Int) : Int :=
  match findUser db uid with
  | some u =>
      match u.last_summary_timestamp with
      | some ls => if u.last_seen < ls then ls else u.last_seen
      | none => u.last_seen
  | none => now - 86400

/-- Python `get_last_summary_timestamp`. -/
def get_last_summary_timestamp (db : DB) (uid : Int) : Option Int :=
  (findUser db uid).bind (fun u => u.last_summary_timestamp)

/-! ### Unread fetching (bot.py, `fetch_unread_messages`) -/

/-- The effective timestamp computed inside `fetch_unread_messages`:
`max(since_timestamp, now - 10 days, now - config.time_window)`. -/
def effectiveCutoff (cfg : Config) (now since : Int) : Int :=
  max since (max (now - maxRetentionAge) (now - timeWindow cfg))

/-- Ordering used by `ORDER BY timestamp ASC`. -/
def msgLE (a b : Msg) : Prop := a.timestamp ≤ b.timestamp

instance : DecidableRel msgLE :=
  fun a b => inferInstanceAs (Decidable (a.timestamp ≤ b.timestamp))

instance : IsTotal Msg msgLE := ⟨fun a b => Int.le_total a.timestamp b.timestamp⟩

instance : IsTrans Msg msgLE := ⟨fun _ _ _ hab hbc => le_trans hab hbc⟩

/-- The selection predicate of the SQL query in `fetch_unread_messages`:
`timestamp > effective`, `user_id != ?`, and the (vacuous) subquery
`chat_id IN (SELECT DISTINCT chat_id FROM messages)`. -/
def unreadPred (db : DB) (eff uid : Int) (m : Msg) : Bool :=
  decide (eff < m.timestamp) && decide (m.user_id ≠ uid) &&
    (db.messages.map (fun x => x.chat_id)).contains m.chat_id

/-- The rows selected and ordered by the query in `fetch_unread_messages`. -/
def unreadRows (cfg : Config) (db : DB) (now uid since : Int) : List Msg :=
  List.insertionSort msgLE
    (db.messages.filter (unreadPred db (effectiveCutoff cfg now since) uid))

/-- The Python line `f"[{timestamp}] {row[1] or row[0]}: {row[2]}"`:
first name when non-empty, otherwise username. -/
def formatLine (m : Msg) : String :=
  "[" ++ toString m.timestamp ++ "] " ++
    (if m.first_name = "" then m.username else m.first_name) ++ ": " ++ m.text

/-- Python `fetch_unread_messages(user_id, since_timestamp)`. -/
def fetch_unread_messages (cfg : Config) (db : DB) (now uid since : Int) :
    List String :=
  (unreadRows cfg db now uid since).map formatLine

/-! ### Handler layer (bot.py) -/

/-- An outbound chat message: `plain` is an ordinary `send_message` /
`reply_text`; `prompt` is a `send_message` carrying the Yes/No
`InlineKeyboardMarkup`. -/
inductive Sent where
  | plain : Int → String → Sent
  | prompt : Int → String → Sent
deriving DecidableEq

/-- Whether an outbound message carries the Yes/No summary keyboard. -/
def Sent.isPrompt : Sent → Bool
  | .prompt _ _ => true
  | .plain _ _ => false

/-- Rejection reply of the allow-list gate in `chatzip` and `whatshot`. -/
def rejectionText : String := "This bot is only available in specific group chats."

/-- The caught-up notice sent by `ask_for_summary` when throttled. -/
def caughtUpText (cfg : Config) : String :=
  "You\x27re already caught up with messages from the last " ++
    toString cfg.time_window_hours ++
    " hours! I\x27ll notify you when there are more new messages to summarize."

/-- The Yes/No question text of `ask_for_summary`. -/
def summaryPromptText (cfg : Config) : String :=
  "You have more than " ++ toString cfg.message_limit ++
    " unread messages from the last " ++ toString cfg.time_window_hours ++
    " hours. Would you like a summary?"

/-- The group-chat notice `chatzip` posts before DM-ing the user. -/
def chatzipGroupNotice (display_name : String) (n : Nat) : String :=
  "Hey " ++ display_name ++ "! You have " ++ toString n ++
    " unread messages (maximum 10 days of history). " ++
    "I\x27ve sent you a private message to help you catch up. " ++
    "Please check your DMs! 📩\n\n" ++
    "(This message will self-destruct in 10 seconds 💥)"

/-- The Yes/No question text of the `chatzip` group path. -/
def chatzipPromptText (cfg : Config) (n : Nat) : String :=
  "You have " ++ toString n ++ " unread messages from the last " ++
    toString (min cfg.time_window_hours 240) ++
    " hours. Would you like a summary? " ++
    "(Note: Messages older than 10 days are not included)"

/-- The caught-up reply of `chatzip`. -/
def chatzipCaughtUpText (cfg : Config) (n : Nat) : String :=
  "You have " ++ toString n ++
    " unread messages, you need at least 10 unread messages to get a summary. " ++
    "from the last " ++ toString (min cfg.time_window_hours 240) ++
    " hours - you\x27re all caught up! 👍"

/-- The `/start` welcome text. -/
def startText (cfg : Config) : String :=
  "👋 Hi! I\x27m your friendly commit365-Bot-helper. " ++
    "Right now the only thing I can do is help you catch up on group chats by " ++
    "summarizing unread messages. You can summon me by calling /start or " ++
    "/chatzip to sumarize your unread chats, also I\x27ll notify you when you " ++
    "have more than " ++ toString cfg.message_limit ++
    " unread messages in case you want a summary! feel free to make me more " ++
    "useful by adding more features."

/-- Python `ask_for_summary`: when a last-summary timestamp is recorded, re-count the
messages newer than `max(last_summary, now - config.time_window)` and, below
`MESSAGE_LIMIT`, send only the caught-up notice; otherwise send the Yes/No
prompt.  Read-only on the database. -/
def ask_for_summary (cfg : Config) (db : DB) (now uid : Int) : List Sent :=
  match get_last_summary_timestamp db uid with
  | some last_summary =>
      let earliest_timestamp := now - timeWindow cfg
      let effective_timestamp := max last_summary earliest_timestamp
      let new_messages := fetch_unread_messages cfg db now uid effective_timestamp
      if new_messages.length < cfg.message_limit then
        [Sent.plain uid (caughtUpText cfg)]
      else
        [Sent.prompt uid (summaryPromptText cfg)]
  | none => [Sent.prompt uid (summaryPromptText cfg)]

/-- The `/chatzip` command handler.  Returns the (unchanged) database and the
outbound messages. -/
def chatzip (cfg : Config) (db : DB) (now chat_id uid : Int)
    (username first_name : String) : DB × List Sent :=
  if ! cfg.allowed_chat_ids.contains chat_id then
    (db, [Sent.plain chat_id rejectionText])
  else
    let display_name := if first_name = "" then username else first_name
    let last_seen := get_user_last_seen db now uid
    let unread_messages := fetch_unread_messages cfg db now uid last_seen
    if cfg.message_limit < unread_messages.length then
      if chat_id ≠ uid then
        (db, [Sent.plain chat_id (chatzipGroupNotice display_name unread_messages.length),
              Sent.prompt uid (chatzipPromptText cfg unread_messages.length)])
      else
        (db, ask_for_summary cfg db now uid)
    else
      (db, [Sent.plain chat_id (chatzipCaughtUpText cfg unread_messages.length)])

/-- The plain-text message handler `handle_message`: gate on the allow-list,
sanitize, store the message, and offer a summary when the unread count exceeds
`MESSAGE_LIMIT`; finally record activity.  A non-positive user id makes
`sanitize_user_data` raise, which the surrounding `try` turns into a no-op. -/
def handle_message (cfg : Config) (db : DB) (now chat_id uid message_id : Int)
    (username first_name text : Option String) : DB × List Sent :=
  if ! cfg.allowed_chat_ids.contains chat_id then (db, [])
  else if uid ≤ 0 then (db, [])
  else
    let username1 := sanitize_input (username.getD "")
    let first_name1 := sanitize_input (first_name.getD "")
    let text1 := sanitize_input (text.getD "")
    let db1 := store_message db
      { message_id := message_id, chat_id := chat_id, user_id := uid,
        username := username1, first_name := first_name1, text := text1,
        timestamp := now }
    let last_seen := get_user_last_seen db1 now uid
    let unread_messages := fetch_unread_messages cfg db1 now uid last_seen
    let sent := if cfg.message_limit < unread_messages.length then
        ask_for_summary cfg db1 now uid
      else []
    let db2 := update_user_activity db1 uid now message_id none
    (db2, sent)

/-- The `/start` command handler: no allow-list gate, replies the welcome
text, touches no storage. -/
def start (cfg : Config) (db : DB) (chat_id uid : Int) : DB × List Sent :=
  (db, [Sent.plain chat_id (startText cfg)])

/-- The `/whatshot` command handler; `stories` stands for the string produced
by the external `fetch_hn_stories` call. -/
def whatshot (cfg : Config) (db : DB) (chat_id uid : Int) (stories : String) :
    DB × List Sent :=
  if ! cfg.allowed_chat_ids.contains chat_id then
    (db, [Sent.plain chat_id rejectionText])
  else
    (db, [Sent.plain chat_id ("Fetching hot stories from hackernews... 🔍"),
          Sent.plain chat_id stories])

/-! ### Derived counting notions and spec-side definitions -/

/-- Number of stored messages from senders other than `uid` whose timestamp is
strictly above the cutoff `c`. -/
def countAbove (msgs : List Msg) (uid c : Int) : Nat :=
  (msgs.filter (fun m => decide (c < m.timestamp) && decide (m.user_id ≠ uid))).length

/-- Number of stored messages from other senders newer than
`max(last_summary, now - configured window)` — the quantity the throttle gate
is specified against. -/
def qualifyingCount (cfg : Config) (db : DB) (now uid ls : Int) : Nat :=
  countAbove db.messages uid (max ls (now - timeWindow cfg))

/-- The cutoff base exactly as the specification words it: the later of the
stored `last_seen` and `last_summary_timestamp` when a record exists, and
`now - 24h` otherwise.  Stated independently of `get_user_last_seen` so the
two can be compared. -/
def claimedCutoffBase (db : DB) (now uid : Int) : Int :=
  match findUser db uid with
  | some u => max u.last_seen (u.last_summary_timestamp.getD u.last_seen)
  | none => now - 86400

/-- Every character an `htmlEscapeChar` entity can emit. -/
def entityChars : List Char := ("&amp;ltgqux#27o").data

/-- A small configuration used by concrete witnesses: threshold 10, 24-hour
window, one allowed chat. -/
def cfg10 : Config :=
  { message_limit := 10, time_window_hours := 24, allowed_chat_ids := [100] }

/-- The empty database. -/
def dbEmpty : DB := { users := [], messages := [] }

/-! ### Helper lemmas -/

theorem store_message_users (db : DB) (m : Msg) :
    (store_message db m).users = db.users := by
  unfold store_message; split <;> rfl

theorem findUser_store (db : DB) (m : Msg) (uid : Int) :
    findUser (store_message db m) uid = findUser db uid := by
  unfold findUser; rw [store_message_users]

theorem get_user_last_seen_store (db : DB) (m : Msg) (now uid : Int) :
    get_user_last_seen (store_message db m) now uid =
      get_user_last_seen db now uid := by
  unfold get_user_last_seen; rw [findUser_store]

theorem get_last_summary_store (db : DB) (m : Msg) (uid : Int) :
    get_last_summary_timestamp (store_message db m) uid =
      get_last_summary_timestamp db uid := by
  unfold get_last_summary_timestamp; rw [findUser_store]

theorem countAbove_anti (msgs : List Msg) (uid c1 c2 : Int) (h : c1 ≤ c2) :
    countAbove msgs uid c2 ≤ countAbove msgs uid c1 := by
  unfold countAbove
  refine List.Sublist.length_le (List.monotone_filter_right _ ?_)
  intro m hm
  simp only [Bool.and_eq_true, decide_eq_true_eq] at hm ⊢
  exact ⟨by omega, hm.2⟩

theorem countAbove_append_own (msgs : List Msg) (m : Msg) (uid c : Int)
    (hm : m.user_id = uid) :
    countAbove (msgs ++ [m]) uid c = countAbove msgs uid c := by
  unfold countAbove
  rw [List.filter_append]
  simp [hm]

theorem countAbove_store (db : DB) (m : Msg) (uid c : Int) (hm : m.user_id = uid) :
    countAbove (store_message db m).messages uid c = countAbove db.messages uid c := by
  unfold store_message; split
  · rfl
  · exact countAbove_append_own _ _ _ _ hm

theorem fetch_length (cfg : Config) (db : DB) (now uid since : Int) :
    (fetch_unread_messages cfg db now uid since).length =
      countAbove db.messages uid (effectiveCutoff cfg now since) := by
  unfold fetch_unread_messages unreadRows countAbove
  rw [List.length_map, (List.perm_insertionSort msgLE _).length_eq]
  congr 1
  apply List.filter_congr
  intro m hm
  have hchat : m.chat_id ∈ db.messages.map (fun x => x.chat_id) :=
    List.mem_map_of_mem _ hm
  simp [unreadPred, hchat]

theorem findUser_map_guard (l : List UserRec) (uid : Int) (g : UserRec → UserRec)
    (hg : ∀ v, (g v).user_id = v.user_id) :
    (l.map (fun v => if v.user_id == uid then g v else v)).find?
        (fun v => v.user_id == uid) =
      (l.find? (fun v => v.user_id == uid)).map g := by
  induction l with
  | nil => rfl
  | cons a t ih =>
    simp only [List.map_cons, List.find?_cons]
    by_cases ha : (a.user_id == uid) = true
    · have hga : ((g a).user_id == uid) = true := by rw [hg]; exact ha
      simp [ha, hga]
    · have ha' : (a.user_id == uid) = false := by
        rw [Bool.eq_false_iff]; exact ha
      rw [if_neg ha, ha']
      exact ih

theorem findUser_update (db : DB) (uid observed mid : Int) (st : Option Int)
    (u : UserRec) (hu : findUser db uid = some u) (hlt : u.last_seen < observed) :
    findUser (update_user_activity db uid observed mid st) uid =
      some (match st with
        | some s =>
            { u with last_seen := observed, last_message_id := mid,
                     last_summary_timestamp := some s }
        | none => { u with last_seen := observed, last_message_id := mid }) := by
  cases st with
  | some s =>
    simp only [update_user_activity, hu, if_pos hlt]
    unfold findUser at hu ⊢
    rw [findUser_map_guard db.users uid
      (fun v => { v with last_seen := observed, last_message_id := mid,
                         last_summary_timestamp := some s }) (fun v => rfl), hu]
    rfl
  | none =>
    simp only [update_user_activity, hu, if_pos hlt]
    unfold findUser at hu ⊢
    rw [findUser_map_guard db.users uid
      (fun v => { v with last_seen := observed, last_message_id := mid })
      (fun v => rfl), hu]
    rfl

/-! ### Claims -/

/-- C1: the effective cutoff used by `fetch_unread_messages` when fed the
stored last-seen position equals `max(b, now - 10 days, now - window)` where
`b` is the later of `last_seen` and `last_summary_timestamp` for an existing
record and `now - 24h` otherwise; for a user with no record the cutoff lies
in `[now - min(24h, window, 10d), now]`. -/
theorem c1_effective_cutoff (cfg : Config) (db : DB) (now uid : Int)
    (hw : 0 < cfg.time_window_hours) :
    effectiveCutoff cfg now (get_user_last_seen db now uid) =
      max (claimedCutoffBase db now uid)
        (max (now - 864000) (now - cfg.time_window_hours * 3600)) ∧
    (findUser db uid = none →
      now - min 86400 (min (cfg.time_window_hours * 3600) 864000) ≤
          effectiveCutoff cfg now (get_user_last_seen db now uid) ∧
        effectiveCutoff cfg now (get_user_last_seen db now uid) ≤ now) := by
  constructor
  · cases hfind : findUser db uid with
    | none =>
      simp only [effectiveCutoff, claimedCutoffBase, get_user_last_seen,
        timeWindow, maxRetentionAge, hfind]
    | some u =>
      cases hls : u.last_summary_timestamp with
      | none =>
        simp only [effectiveCutoff, claimedCutoffBase, get_user_last_seen,
          timeWindow, maxRetentionAge, hfind, hls, Option.getD_none]
        omega
      | some ls =>
        simp only [effectiveCutoff, claimedCutoffBase, get_user_last_seen,
          timeWindow, maxRetentionAge, hfind, hls, Option.getD_some]
        omega
  · intro hnone
    simp only [effectiveCutoff, get_user_last_seen, timeWindow,
      maxRetentionAge, hnone]
    omega

theorem c1_witness :
    effectiveCutoff cfg10 1000000 (get_user_last_seen dbEmpty 1000000 1) =
      max (claimedCutoffBase dbEmpty 1000000 1)
        (max (1000000 - 864000) (1000000 - cfg10.time_window_hours * 3600)) ∧
    (1000000 - min 86400 (min (cfg10.time_window_hours * 3600) 864000) ≤
        effectiveCutoff cfg10 1000000 (get_user_last_seen dbEmpty 1000000 1) ∧
      effectiveCutoff cfg10 1000000 (get_user_last_seen dbEmpty 1000000 1) ≤
        1000000) :=
  ⟨(c1_effective_cutoff cfg10 dbEmpty 1000000 1 (by decide)).1,
   (c1_effective_cutoff cfg10 dbEmpty 1000000 1 (by decide)).2 (by decide)⟩

/-- C4: `update_user_activity` never regresses a stored `last_seen`: a call
whose observed timestamp is not strictly greater than the stored one leaves
the whole database unchanged, and after any call the stored `last_seen` is at
least the previous one. -/
theorem c4_update_user_activity_monotone (db : DB) (uid observed mid : Int)
    (st : Option Int) (u : UserRec) (hu : findUser db uid = some u) :
    (observed ≤ u.last_seen →
      update_user_activity db uid observed mid st = db) ∧
    (∀ v, findUser (update_user_activity db uid observed mid st) uid = some v →
      u.last_seen ≤ v.last_seen) := by
  have hno : ¬ u.last_seen < observed →
      update_user_activity db uid observed mid st = db := by
    intro h
    simp only [update_user_activity, hu, if_neg h]
  constructor
  · intro h
    exact hno (by omega)
  · intro v hv
    by_cases hlt : u.last_seen < observed
    · rw [findUser_update db uid observed mid st u hu hlt] at hv
      cases st <;> (simp only [Option.some_inj] at hv; subst hv; exact le_of_lt hlt)
    · rw [hno hlt, hu] at hv
      cases hv
      omega

theorem c4_witness :
    update_user_activity
        { users := [{ user_id := 1, last_seen := 50, last_message_id := 3,
                      last_summary_timestamp := none }], messages := [] }
        1 40 9 none =
      { users := [{ user_id := 1, last_seen := 50, last_message_id := 3,
                    last_summary_timestamp := none }], messages := [] } :=
  (c4_update_user_activity_monotone _ 1 40 9 none
      { user_id := 1, last_seen := 50, last_message_id := 3,
        last_summary_timestamp := none } (by decide)).1 (by decide)

theorem find?_append_of_none {α : Type} (p : α → Bool) (l : List α) (a : α)
    (h : l.find? p = none) (ha : p a = true) : (l ++ [a]).find? p = some a := by
  induction l with
  | nil => simp [List.find?_cons, ha]
  | cons x t ih =>
    have hx : ¬ p x = true := by
      intro hpx
      rw [List.find?_cons_of_pos _ hpx] at h
      exact Option.noConfusion h
    rw [List.cons_append, List.find?_cons_of_neg _ hx]
    rw [List.find?_cons_of_neg _ hx] at h
    exact ih h

/-- Database with one user record whose `last_seen` is 10 and with no
recorded summary timestamp. -/
def dbC5 : DB :=
  { users := [{ user_id := 1, last_seen := 10, last_message_id := 0,
                last_summary_timestamp := none }], messages := [] }

/-- C5 counterexample: a call providing `summary_timestamp = 99` whose
`observed_at` (10) is not strictly greater than the stored `last_seen` (10)
is a complete no-op — the summary timestamp is NOT stored. -/
theorem c5_counterexample :
    update_user_activity dbC5 1 10 5 (some 99) = dbC5 ∧
    get_last_summary_timestamp (update_user_activity dbC5 1 10 5 (some 99)) 1 ≠
      some 99 := by
  constructor <;> decide

/-- C5 (amended): `summary_timestamp`, when provided, is stored together with
the guarded fields — always on insert, and on an existing record exactly when
`observed_at` is strictly greater than the stored `last_seen`; when
`observed_at` is not strictly greater the call leaves the database, including
`last_summary_timestamp`, unchanged. -/
theorem c5_summary_timestamp_guarded (db : DB) (uid observed mid st : Int) :
    (∀ u, findUser db uid = some u → observed ≤ u.last_seen →
      update_user_activity db uid observed mid (some st) = db) ∧
    (∀ u, findUser db uid = some u → u.last_seen < observed →
      findUser (update_user_activity db uid observed mid (some st)) uid =
        some { u with last_seen := observed, last_message_id := mid,
                      last_summary_timestamp := some st }) ∧
    (findUser db uid = none →
      findUser (update_user_activity db uid observed mid (some st)) uid =
        some { user_id := uid, last_seen := observed, last_message_id := mid,
               last_summary_timestamp := some st }) := by
  refine ⟨fun u hu h => ?_, fun u hu h =>
    findUser_update db uid observed mid (some st) u hu h, fun hn => ?_⟩
  · simp only [update_user_activity, hu,
      if_neg (by omega : ¬ u.last_seen < observed)]
  · simp only [update_user_activity, hn]
    unfold findUser at hn ⊢
    exact find?_append_of_none _ db.users _ hn (by simp)

theorem c5_witness :
    update_user_activity dbC5 1 10 5 (some 99) = dbC5 ∧
    findUser (update_user_activity dbC5 1 20 5 (some 99)) 1 =
      some { user_id := 1, last_seen := 20, last_message_id := 5,
             last_summary_timestamp := some 99 } ∧
    findUser (update_user_activity dbEmpty 1 20 5 (some 99)) 1 =
      some { user_id := 1, last_seen := 20, last_message_id := 5,
             last_summary_timestamp := some 99 } :=
  ⟨(c5_summary_timestamp_guarded dbC5 1 10 5 99).1
      { user_id := 1, last_seen := 10, last_message_id := 0,
        last_summary_timestamp := none } (by decide) (by decide),
   (c5_summary_timestamp_guarded dbC5 1 20 5 99).2.1
      { user_id := 1, last_seen := 10, last_message_id := 0,
        last_summary_timestamp := none } (by decide) (by decide),
   (c5_summary_timestamp_guarded dbEmpty 1 20 5 99).2.2 (by decide)⟩

/-- C8: `store_message` is idempotent in the message identifier — a second
insert with the same identifier (any attribute values) is a no-op, and after
the first insert into a store free of that identifier exactly the original
row is present for it. -/
theorem c8_store_message_idempotent (db : DB) (m1 m2 : Msg)
    (hid : m2.message_id = m1.message_id)
    (hfresh : ∀ m ∈ db.messages, m.message_id ≠ m1.message_id) :
    store_message (store_message db m1) m2 = store_message db m1 ∧
    (store_message db m1).messages.filter
        (fun m => m.message_id == m1.message_id) = [m1] := by
  have hany : (db.messages.any (fun x => x.message_id == m1.message_id)) = false := by
    rw [List.any_eq_false]
    intro x hx
    simp [hfresh x hx]
  have h1 : store_message db m1 = { db with messages := db.messages ++ [m1] } := by
    unfold store_message
    rw [if_neg (by simp [hany])]
  constructor
  · rw [h1]
    unfold store_message
    rw [if_pos ?side]
    case side =>
      simp only [List.any_eq_true]
      exact ⟨m1, by simp, by simp [hid]⟩
  · rw [h1]
    simp only [List.filter_append]
    have hnil : db.messages.filter (fun m => m.message_id == m1.message_id) = [] := by
      rw [List.filter_eq_nil_iff]
      intro x hx
      simp [hfresh x hx]
    rw [hnil]
    simp

/-- A concrete stored message, used by witnesses. -/
def msgW : Msg :=
  { message_id := 1, chat_id := 100, user_id := 2, username := "alice",
    first_name := "Alice", text := "hi", timestamp := 500 }

theorem c8_witness :
    store_message (store_message dbEmpty msgW) { msgW with text := "other" } =
      store_message dbEmpty msgW ∧
    (store_message dbEmpty msgW).messages.filter
        (fun m => m.message_id == msgW.message_id) = [msgW] :=
  c8_store_message_idempotent dbEmpty msgW { msgW with text := "other" }
    rfl (by decide)

/-- C10: `sanitize_user_data` fails (Python `ValueError`) exactly on a
non-positive user id; for a positive id it returns the id with the two
sanitized fields, a missing field mapping to the empty string. -/
theorem c10_sanitize_user_data (uid : Int) (username first_name : Option String) :
    (0 < uid → sanitize_user_data uid username first_name =
      Except.ok (uid, sanitize_input (username.getD ""),
        sanitize_input (first_name.getD ""))) ∧
    (uid ≤ 0 → sanitize_user_data uid username first_name =
      Except.error ("Invalid user ID")) ∧
    (0 < uid → sanitize_user_data uid none none = Except.ok (uid, "", "")) := by
  refine ⟨fun h => ?_, fun h => ?_, fun h => ?_⟩ <;>
    simp only [sanitize_user_data]
  · rw [if_neg (by omega)]
  · rw [if_pos h]
  · rw [if_neg (by omega)]
    rfl

theorem c10_witness :
    sanitize_user_data 7 none none = Except.ok (7, "", "") ∧
    sanitize_user_data (-3) none (some ("Bob")) =
      Except.error ("Invalid user ID") :=
  ⟨(c10_sanitize_user_data 7 none none).2.2 (by decide),
   (c10_sanitize_user_data (-3) none (some ("Bob"))).2.1 (by decide)⟩

/-- C9: for every stored set of messages, in whatever insertion order, the
rows behind `fetch_unread_messages` are sorted ascending by timestamp, and
each returned line is `[timestamp] displayName: text` with the first name
preferred over the username. -/
theorem c9_fetch_sorted_and_formatted (cfg : Config) (db : DB)
    (now uid since : Int) :
    List.Sorted (fun a b : Msg => a.timestamp ≤ b.timestamp)
      (unreadRows cfg db now uid since) ∧
    fetch_unread_messages cfg db now uid since =
      (unreadRows cfg db now uid since).map formatLine ∧
    ∀ m : Msg, formatLine m =
      "[" ++ toString m.timestamp ++ "] " ++
        (if m.first_name = "" then m.username else m.first_name) ++ ": " ++
        m.text :=
  ⟨List.sorted_insertionSort msgLE _, rfl, fun m => rfl⟩

/-- C3: every line returned by `fetch_unread_messages` is the formatting of a
stored message whose sender differs from the requesting user and whose
timestamp is strictly greater than the effective cutoff; a message whose
timestamp equals the cutoff is never selected. -/
theorem c3_fetch_unread_sound (cfg : Config) (db : DB) (now uid since : Int) :
    (∀ s ∈ fetch_unread_messages cfg db now uid since,
      ∃ m ∈ db.messages, s = formatLine m ∧ m.user_id ≠ uid ∧
        effectiveCutoff cfg now since < m.timestamp) ∧
    (∀ m ∈ unreadRows cfg db now uid since,
      m.timestamp ≠ effectiveCutoff cfg now since) := by
  have key : ∀ m ∈ unreadRows cfg db now uid since,
      m ∈ db.messages ∧ m.user_id ≠ uid ∧
        effectiveCutoff cfg now since < m.timestamp := by
    intro m hm
    rw [unreadRows, List.mem_insertionSort] at hm
    rcases List.mem_filter.mp hm with ⟨hmem, hpred⟩
    simp only [unreadPred, Bool.and_eq_true, decide_eq_true_eq] at hpred
    exact ⟨hmem, hpred.1.2, hpred.1.1⟩
  constructor
  · intro s hs
    rcases List.mem_map.mp hs with ⟨m, hm, rfl⟩
    rcases key m hm with ⟨h1, h2, h3⟩
    exact ⟨m, h1, rfl, h2, h3⟩
  · intro m hm
    rcases key m hm with ⟨-, -, h3⟩
    omega

/-- A database holding only the witness message. -/
def dbW : DB := { users := [], messages := [msgW] }

theorem c3_witness :
    ∃ m ∈ dbW.messages, formatLine msgW = formatLine m ∧ m.user_id ≠ 1 ∧
      effectiveCutoff cfg10 1000 400 < m.timestamp :=
  (c3_fetch_unread_sound cfg10 dbW 1000 1 400).1 (formatLine msgW) (by decide)

theorem htmlEscapeChar_safe (a c : Char) (ha : isSqlStripped a = false)
    (hc : c ∈ htmlEscapeChar a) : c ≠ squote ∧ c ≠ dquote ∧ c ≠ '-' := by
  unfold htmlEscapeChar at hc
  split_ifs at hc with h1 h2 h3 h4 h5
  · rw [show ("&amp;").data = ['&', 'a', 'm', 'p', (';')] from rfl] at hc
    simp only [List.mem_cons, List.not_mem_nil, or_false] at hc
    rcases hc with rfl | rfl | rfl | rfl | rfl <;> refine ⟨?_, ?_, ?_⟩ <;> decide
  · rw [show ("&lt;").data = ['&', 'l', 't', (';')] from rfl] at hc
    simp only [List.mem_cons, List.not_mem_nil, or_false] at hc
    rcases hc with rfl | rfl | rfl | rfl <;> refine ⟨?_, ?_, ?_⟩ <;> decide
  · rw [show ("&gt;").data = ['&', 'g', 't', (';')] from rfl] at hc
    simp only [List.mem_cons, List.not_mem_nil, or_false] at hc
    rcases hc with rfl | rfl | rfl | rfl <;> refine ⟨?_, ?_, ?_⟩ <;> decide
  · exfalso
    rw [h4] at ha
    exact absurd ha (by decide)
  · exfalso
    rw [h5] at ha
    exact absurd ha (by decide)
  · simp only [List.mem_singleton] at hc
    subst hc
    simp only [isSqlStripped, Bool.or_eq_false_iff, decide_eq_false_iff_not] at ha
    exact ⟨ha.1.1.2, ha.1.2, ha.2⟩

/-- C7 counterexample: the original claim says the output never contains `;`,
but HTML entity escaping introduces one: `sanitize_input "&" = "&amp;"`. -/
theorem c7_counterexample :
    sanitize_input ("&") = "&amp;" ∧ (';') ∈ (sanitize_input ("&")).data := by
  constructor <;> decide

/-- C7 (amended): `sanitize_input` output never contains a single quote,
double quote or hyphen (hence no `--` sequence), contains no character with
code point below 32, and has length at most 4096; semicolons can only stem
from HTML entity escaping, and for the scenario input
`"; DROP TABLE users; --` the output ` DROP TABLE users ` contains no `;`,
quote or hyphen. -/
theorem c7_sanitize_input_safe (s : String) :
    (∀ c ∈ (sanitize_input s).data,
      c ≠ squote ∧ c ≠ dquote ∧ c ≠ '-' ∧ 32 ≤ c.toNat) ∧
    (sanitize_input s).data.length ≤ 4096 ∧
    sanitize_input ("\"; DROP TABLE users; --") = " DROP TABLE users " ∧
    ∀ c ∈ (sanitize_input ("\"; DROP TABLE users; --")).data,
      c ≠ (';') ∧ c ≠ squote ∧ c ≠ dquote ∧ c ≠ '-' := by
  refine ⟨?_, ?_, by decide, by decide⟩
  · intro c hcmem
    by_cases hs : s = ""
    · simp [sanitize_input, hs] at hcmem
    · simp only [sanitize_input, if_neg hs] at hcmem
      have hc3 : c ∈ ((s.data.filter (fun c => ! isSqlStripped c)).flatMap
          htmlEscapeChar).filter (fun c => 32 ≤ c.toNat) := by
        exact List.mem_of_mem_take hcmem
      rcases List.mem_filter.mp hc3 with ⟨hc2, hord⟩
      rcases List.mem_flatMap.mp hc2 with ⟨a, ha, hca⟩
      rcases List.mem_filter.mp ha with ⟨-, hastr⟩
      rw [Bool.not_eq_true'] at hastr
      rcases htmlEscapeChar_safe a c hastr hca with ⟨e1, e2, e3⟩
      exact ⟨e1, e2, e3, by simpa using hord⟩
  · by_cases hs : s = ""
    · simp [sanitize_input, hs]
    · simp only [sanitize_input, if_neg hs]
      simp

theorem c7_witness :
    ('a') ≠ squote ∧ ('a') ≠ dquote ∧ ('a') ≠ '-' ∧ 32 ≤ ('a').toNat :=
  (c7_sanitize_input_safe ("a")).1 ('a') (by decide)

/-- Configuration with an empty allow-list. -/
def cfgNone : Config :=
  { message_limit := 10, time_window_hours := 24, allowed_chat_ids := [] }

/-- C6 counterexample: `/start` from chat 5, which is outside the (empty)
allow-list, replies the welcome text and not the fixed rejection text. -/
theorem c6_counterexample :
    (cfgNone.allowed_chat_ids.contains 5) = false ∧
    (start cfgNone dbEmpty 5 1).2 = [Sent.plain 5 (startText cfgNone)] ∧
    startText cfgNone ≠ rejectionText := by
  refine ⟨rfl, rfl, by decide⟩

/-- C6 (amended): a command from a chat not in `ALLOWED_CHAT_IDS` performs no
mutation of the users or messages store; `/chatzip` and `/whatshot` reply
with the fixed rejection text, while `/start`, which has no allow-list gate,
replies the welcome text for any chat. -/
theorem c6_reject_unallowed (cfg : Config) (db : DB) (now chat uid : Int)
    (username first_name stories : String)
    (h : cfg.allowed_chat_ids.contains chat = false) :
    chatzip cfg db now chat uid username first_name =
      (db, [Sent.plain chat rejectionText]) ∧
    whatshot cfg db chat uid stories = (db, [Sent.plain chat rejectionText]) ∧
    start cfg db chat uid = (db, [Sent.plain chat (startText cfg)]) := by
  have hmem : chat ∉ cfg.allowed_chat_ids := by simpa using h
  refine ⟨?_, ?_, rfl⟩ <;> simp [chatzip, whatshot, hmem]

theorem c6_witness :
    chatzip cfgNone dbEmpty 0 5 1 ("u") ("f") =
      (dbEmpty, [Sent.plain 5 rejectionText]) ∧
    whatshot cfgNone dbEmpty 5 1 ("s") =
      (dbEmpty, [Sent.plain 5 rejectionText]) ∧
    start cfgNone dbEmpty 5 1 = (dbEmpty, [Sent.plain 5 (startText cfgNone)]) :=
  c6_reject_unallowed cfgNone dbEmpty 0 5 1 ("u") ("f") ("s") (by decide)

theorem ls_le_get_user_last_seen (db : DB) (now uid ls : Int)
    (hls : get_last_summary_timestamp db uid = some ls) :
    ls ≤ get_user_last_seen db now uid := by
  unfold get_last_summary_timestamp at hls
  cases hfind : findUser db uid with
  | none => rw [hfind] at hls; simp at hls
  | some u =>
    rw [hfind] at hls
    simp only [Option.some_bind] at hls
    simp only [get_user_last_seen, hfind, hls]
    split <;> omega

theorem fetch_le_qualifying (cfg : Config) (db : DB) (now uid ls since : Int)
    (hs : ls ≤ since) :
    (fetch_unread_messages cfg db now uid since).length ≤
      qualifyingCount cfg db now uid ls := by
  rw [fetch_length]
  unfold qualifyingCount
  apply countAbove_anti
  unfold effectiveCutoff maxRetentionAge
  omega

theorem qualifyingCount_store_own (cfg : Config) (db : DB) (m : Msg)
    (now uid ls : Int) (hm : m.user_id = uid) :
    qualifyingCount cfg (store_message db m) now uid ls =
      qualifyingCount cfg db now uid ls := by
  unfold qualifyingCount
  exact countAbove_store db m uid _ hm

theorem ask_for_summary_throttled (cfg : Config) (db : DB) (now uid ls : Int)
    (hls : get_last_summary_timestamp db uid = some ls)
    (hcount : qualifyingCount cfg db now uid ls < cfg.message_limit) :
    ask_for_summary cfg db now uid = [Sent.plain uid (caughtUpText cfg)] := by
  have hlen : (fetch_unread_messages cfg db now uid
      (max ls (now - timeWindow cfg))).length < cfg.message_limit :=
    lt_of_le_of_lt
      (fetch_le_qualifying cfg db now uid ls _ (le_max_left _ _)) hcount
  simp only [ask_for_summary, hls]
  rw [if_pos hlen]

theorem fetch_after_store_lt (cfg : Config) (db : DB) (m : Msg)
    (now uid ls : Int) (hm : m.user_id = uid)
    (hls : get_last_summary_timestamp db uid = some ls)
    (hcount : qualifyingCount cfg db now uid ls < cfg.message_limit) :
    (fetch_unread_messages cfg (store_message db m) now uid
      (get_user_last_seen (store_message db m) now uid)).length <
      cfg.message_limit := by
  have hsince : ls ≤ get_user_last_seen (store_message db m) now uid := by
    rw [get_user_last_seen_store]
    exact ls_le_get_user_last_seen db now uid ls hls
  have hle := fetch_le_qualifying cfg (store_message db m) now uid ls _ hsince
  rw [qualifyingCount_store_own cfg db m now uid ls hm] at hle
  omega

/-- C2: whenever the summary flow is triggered — explicitly via `/chatzip` or
implicitly while a plain message is processed — for a user who has a recorded
last-summary timestamp and fewer than `MESSAGE_LIMIT` stored messages from
other senders newer than `max(last_summary, now - window)`, no Yes/No summary
prompt is sent (the gate is throttled). -/
theorem c2_throttle_no_prompt (cfg : Config) (db : DB)
    (now chat uid mid ls : Int) (username first_name : String)
    (mun mfn mtx : Option String)
    (hls : get_last_summary_timestamp db uid = some ls)
    (hcount : qualifyingCount cfg db now uid ls < cfg.message_limit) :
    ((chatzip cfg db now chat uid username first_name).2.all
        (fun s => ! s.isPrompt)) = true ∧
    ((handle_message cfg db now chat uid mid mun mfn mtx).2.all
        (fun s => ! s.isPrompt)) = true := by
  have hsince := ls_le_get_user_last_seen db now uid ls hls
  constructor
  · cases hallow : cfg.allowed_chat_ids.contains chat with
    | false =>
      have hmem : chat ∉ cfg.allowed_chat_ids := by simpa using hallow
      simp [chatzip, hmem, Sent.isPrompt]
    | true =>
      have hlen : (fetch_unread_messages cfg db now uid
          (get_user_last_seen db now uid)).length < cfg.message_limit :=
        lt_of_le_of_lt (fetch_le_qualifying cfg db now uid ls _ hsince) hcount
      simp only [chatzip, hallow, Bool.not_true, Bool.false_eq_true, if_false]
      rw [if_neg (by omega)]
      simp [Sent.isPrompt]
  · cases hallow : cfg.allowed_chat_ids.contains chat with
    | false =>
      have hmem : chat ∉ cfg.allowed_chat_ids := by simpa using hallow
      simp [handle_message, hmem, Sent.isPrompt]
    | true =>
      by_cases huid : uid ≤ 0
      · simp [handle_message, hallow, huid, Sent.isPrompt]
      · have hlen := fetch_after_store_lt cfg db
          { message_id := mid, chat_id := chat, user_id := uid,
            username := sanitize_input (mun.getD ""),
            first_name := sanitize_input (mfn.getD ""),
            text := sanitize_input (mtx.getD ""), timestamp := now }
          now uid ls rfl hls hcount
        simp only [handle_message, hallow, Bool.not_true, Bool.false_eq_true,
          if_false, huid]
        rw [if_neg (by omega)]
        simp

/-- A database where user 1 got a summary at time 900 and only three
qualifying messages arrived afterwards (threshold 10). -/
def dbC2 : DB :=
  { users := [{ user_id := 1, last_seen := 800, last_message_id := 7,
                last_summary_timestamp := some 900 }],
    messages := [
      { message_id := 11, chat_id := 100, user_id := 2, username := "b",
        first_name := "B", text := "m1", timestamp := 901 },
      { message_id := 12, chat_id := 100, user_id := 2, username := "b",
        first_name := "B", text := "m2", timestamp := 902 },
      { message_id := 13, chat_id := 100, user_id := 3, username := "c",
        first_name := "C", text := "m3", timestamp := 903 }] }

theorem c2_witness :
    ((chatzip cfg10 dbC2 1000 100 1 ("u") ("U")).2.all
        (fun s => ! s.isPrompt)) = true ∧
    ((handle_message cfg10 dbC2 1000 100 1 50 (some ("u")) (some ("U"))
        (some ("hello"))).2.all (fun s => ! s.isPrompt)) = true :=
  c2_throttle_no_prompt cfg10 dbC2 1000 100 1 50 900 ("u") ("U")
    (some ("u")) (some ("U")) (some ("hello")) (by decide) (by decide)

end CommitBot
